import Mathlib

/-
Shallow embedding of `src/main.py` (PDF-to-Notes-API).

The program scales each source PDF page into a cell on an A4 output sheet
(4 stacked cells on the left half), draws a dividing grid on top of each
sheet, and serves the transform over a small Flask endpoint.

Modelling conventions:
* Python floats are modelled as exact rationals (ℚ); the spec states the
  geometry as exact arithmetic (`scale = min(Tw/W, Th/H)` exactly).
* A PyPDF2 `PageObject` coming from the reader is `SrcPage`: its media box
  (width, height), an opaque identifier for its drawable content, and the
  list of transformations accumulated on it by `add_transformation`
  (which mutates the page in place; the model passes the updated page
  back explicitly).
* A blank page created by `PageObject.create_blank_page` and filled by
  `merge_page` / `mergeTranslatedPage` records the merge operations in
  order, so "drawn last / on top" is visible as list order.
* Python exceptions are modelled with `Except`: dividing by a zero media
  box dimension raises `ZeroDivisionError` in Python, so the model returns
  `Except.error PyError.zeroDivisionError` exactly where the Python
  division would raise.
* `process_entire_pdf(input_pdf, output_pdf)` reads all pages of the input
  file and writes the produced sheets; the model maps the list of source
  pages read from the input file to the list of produced sheets (the
  output file's pages).  An uncaught exception aborts the run before the
  output file is written, which the model renders as `Except.error`.
-/

/-- Python exceptions that the modelled code can raise. -/
inductive PyError : Type where
  | zeroDivisionError : PyError
deriving DecidableEq

/-- A PyPDF2 `Transformation().scale(s).translate(tx=…, ty=…)`.
`Transformation().scale(s)` with a single argument sets both axis factors
to `s`, so `sx` and `sy` record the two axis factors separately. -/
structure Transformation : Type where
  sx : ℚ
  sy : ℚ
  tx : ℚ
  ty : ℚ
deriving DecidableEq

/-- A source page as obtained from `PdfReader(...).pages[i]`: its media box
width and height (in points), an opaque identifier for its drawable
content, and the transformations accumulated on it by
`add_transformation`. -/
structure SrcPage : Type where
  width : ℚ
  height : ℚ
  contents : ℕ
  transforms : List Transformation
deriving DecidableEq

/-- A blank page made by `PageObject.create_blank_page(width, height)` and
filled by `merge_page`: it records the source pages merged onto it, in
merge order. -/
structure ScaledPage : Type where
  width : ℚ
  height : ℚ
  merged : List SrcPage
deriving DecidableEq

/-- One stroked line segment of the reportlab canvas: endpoints, the stroke
color in effect (RGB), and the stroke width in effect. -/
structure Line : Type where
  x1 : ℚ
  y1 : ℚ
  x2 : ℚ
  y2 : ℚ
  colorR : ℚ
  colorG : ℚ
  colorB : ℚ
  lineWidth : ℚ
deriving DecidableEq

/-- A compositing operation performed on an output sheet, in program order:
`mergeTranslatedPage(scaled_page, tx, ty)` for placed cell content, and
`merge_page(grid_page)` for the grid-line overlay page. -/
inductive SheetOp : Type where
  | mergeTranslatedPage (page : ScaledPage) (tx : ℚ) (ty : ℚ) : SheetOp
  | mergePage (lines : List Line) : SheetOp
deriving DecidableEq

/-- One output page: a blank A4 page (`PageObject.create_blank_page`)
together with the compositing operations applied to it, in order. -/
structure Sheet : Type where
  width : ℚ
  height : ℚ
  ops : List SheetOp
deriving DecidableEq

/-- reportlab A4 width in points: `210 * mm` with `mm = 72 / 25.4`,
i.e. `210 * 72 / 25.4 = 75600 / 127` (≈ 595.2756). -/
def a4_width : ℚ := 75600 / 127

/-- reportlab A4 height in points: `297 * mm` with `mm = 72 / 25.4`,
i.e. `297 * 72 / 25.4 = 106920 / 127` (≈ 841.8898). -/
def a4_height : ℚ := 106920 / 127

/-- Embedding of `scale_and_place_page` (src/main.py lines 20–41).

Scales a given PDF page to fit within a target area while maintaining the
aspect ratio, then places it on a new blank page.  The Python code divides
by the media box dimensions, so a zero width or height raises
`ZeroDivisionError` (`scale_x` is computed first, then `scale_y`).
`input_page.add_transformation(transformation)` mutates the input page in
place; the model returns the updated input page as the first component. -/
def scale_and_place_page (input_page : SrcPage)
    (target_width target_height x_offset y_offset : ℚ) :
    Except PyError (SrcPage × ScaledPage × ℚ × ℚ) :=
  let original_width := input_page.width
  let original_height := input_page.height
  if original_width = 0 then Except.error PyError.zeroDivisionError
  else if original_height = 0 then Except.error PyError.zeroDivisionError
  else
    let scale_x := target_width / original_width
    let scale_y := target_height / original_height
    let scale := min scale_x scale_y
    let transformation : Transformation :=
      { sx := scale
        sy := scale
        tx := (target_width - original_width * scale) / 2
        ty := (target_height - original_height * scale) / 2 }
    let input_page' : SrcPage :=
      { input_page with transforms := input_page.transforms ++ [transformation] }
    let scaled_page : ScaledPage :=
      { width := target_width, height := target_height, merged := [input_page'] }
    Except.ok (input_page', scaled_page, x_offset, y_offset)

/-- Embedding of `draw_grid_on_top` (src/main.py lines 43–72).

Draws a vertical line at the center and three horizontal lines on a
reportlab canvas: stroke color is set to black `(0,0,0)` and line width to
`1` before any line is drawn; the horizontal lines are drawn at
`section_height * i` for `i` in `range(1, 4)`.  The result models the
single page of the returned in-memory PDF. -/
def draw_grid_on_top (page_width page_height : ℚ) : List Line :=
  let center_x := page_width / 2
  let vertical : Line :=
    { x1 := center_x, y1 := 0, x2 := center_x, y2 := page_height
      colorR := 0, colorG := 0, colorB := 0, lineWidth := 1 }
  let section_height := page_height / 4
  let horizontals : List Line :=
    (List.range' 1 3).map fun i =>
      let y_position := section_height * (i : ℚ)
      { x1 := 0, y1 := y_position, x2 := page_width, y2 := y_position
        colorR := 0, colorG := 0, colorB := 0, lineWidth := 1 }
  vertical :: horizontals

/-- The groups visited by `for i in range(0, num_pages, 4)` together with
the bounds check `if page_index < num_pages`: consecutive chunks of at
most four pages, in original order. -/
def chunk4 {α : Type} : List α → List (List α)
  | [] => []
  | a :: b :: c :: d :: rest => [a, b, c, d] :: chunk4 rest
  | l => [l]

/-- The inner `for quadrant in range(4)` loop of `process_entire_pdf`
(src/main.py lines 96–106), applied to the pages of one group starting at
quadrant index `quadrant`: each page is scaled into the cell and merged at
`tx = x_offset = 0`, `ty = y_offset = a4_height - (quadrant + 1) * target_height`.
An exception from `scale_and_place_page` propagates. -/
def fill_quadrants (target_width target_height a4_h : ℚ) :
    List SrcPage → ℕ → Except PyError (List SheetOp)
  | [], _ => Except.ok []
  | input_page :: rest, quadrant =>
    let x_offset : ℚ := 0
    let y_offset : ℚ := a4_h - ((quadrant : ℚ) + 1) * target_height
    match scale_and_place_page input_page target_width target_height x_offset y_offset with
    | Except.error e => Except.error e
    | Except.ok (_, scaled_page, _, _) =>
      match fill_quadrants target_width target_height a4_h rest (quadrant + 1) with
      | Except.error e => Except.error e
      | Except.ok ops =>
        Except.ok (SheetOp.mergeTranslatedPage scaled_page x_offset y_offset :: ops)

/-- The outer loop of `process_entire_pdf` (src/main.py lines 91–115): for
each group of up to four pages, create a blank A4 page, fill its
quadrants, merge the grid overlay on top, and append the sheet to the
writer.  An exception anywhere aborts the whole run. -/
def build_sheets (target_width target_height : ℚ) :
    List (List SrcPage) → Except PyError (List Sheet)
  | [] => Except.ok []
  | group :: rest =>
    match fill_quadrants target_width target_height a4_height group 0 with
    | Except.error e => Except.error e
    | Except.ok ops =>
      match build_sheets target_width target_height rest with
      | Except.error e => Except.error e
      | Except.ok sheets =>
        Except.ok
          ({ width := a4_width, height := a4_height
             ops := ops ++ [SheetOp.mergePage (draw_grid_on_top a4_width a4_height)] } :: sheets)

/-- Embedding of `process_entire_pdf` (src/main.py lines 74–120), as a map
from the pages read out of the input file to the pages written to the
output file.  `target_width = a4_width / 2`, `target_height = a4_height / 4`. -/
def process_entire_pdf (pages : List SrcPage) : Except PyError (List Sheet) :=
  let target_width := a4_width / 2
  let target_height := a4_height / 4
  build_sheets target_width target_height (chunk4 pages)

/-- A file part of a multipart upload: its client-supplied filename and the
pages of the uploaded PDF (the content that `file.save` writes and
`PdfReader` later reads back). -/
structure FilePart : Type where
  filename : String
  pages : List SrcPage
deriving DecidableEq

/-- The HTTP method of a request to `/process-pdf`. -/
inductive HttpMethod : Type where
  | get : HttpMethod
  | post : HttpMethod
deriving DecidableEq

/-- A request to `/process-pdf`: its method and the multipart form files,
keyed by form field name (`request.files`). -/
structure HttpRequest : Type where
  method : HttpMethod
  files : List (String × FilePart)
deriving DecidableEq

/-- The response of `process_pdf_api`: a plain-text response with a status
code, a `send_file` attachment download of the processed output, or the
HTML upload form returned for GET. -/
inductive ApiResponse : Type where
  | plainText (status : ℕ) (body : String) : ApiResponse
  | download (result : Except PyError (List Sheet)) : ApiResponse
  | htmlForm : ApiResponse

/-- Embedding of the `/process-pdf` route handler `process_pdf_api`
(src/main.py lines 122–153).  The second component records whether
`process_entire_pdf` was run (the compositor's side effects happen exactly
when it is `true`).  `if 'file' not in request.files` is the lookup of the
field name; a `FileStorage` is truthy in Python iff its filename is
non-empty, so after the `filename == ''` check the `if file:` branch is
taken. -/
def process_pdf_api (req : HttpRequest) : ApiResponse × Bool :=
  match req.method with
  | HttpMethod.post =>
    match List.lookup ("file") req.files with
    | none => (ApiResponse.plainText 400 ("No file part"), false)
    | some file =>
      if file.filename = "" then (ApiResponse.plainText 400 ("No selected file"), false)
      else (ApiResponse.download (process_entire_pdf file.pages), true)
  | HttpMethod.get => (ApiResponse.htmlForm, false)

/-- The transformation that `scale_and_place_page` builds for a page with
nonzero media box dimensions: uniform scale `min(Tw/W, Th/H)`, then a
centering translation. -/
def transformOf (p : SrcPage) (target_width target_height : ℚ) : Transformation :=
  let scale := min (target_width / p.width) (target_height / p.height)
  { sx := scale
    sy := scale
    tx := (target_width - p.width * scale) / 2
    ty := (target_height - p.height * scale) / 2 }

/-- The state of the input page after `scale_and_place_page` returned: the
original page with the new transformation appended by
`add_transformation`. -/
def mutatedOf (p : SrcPage) (target_width target_height : ℚ) : SrcPage :=
  { p with transforms := p.transforms ++ [transformOf p target_width target_height] }

/-- The cell-sized page that `scale_and_place_page` returns: a fresh blank
page of the target size with the (mutated) input page merged onto it. -/
def scaledOf (p : SrcPage) (target_width target_height : ℚ) : ScaledPage :=
  { width := target_width, height := target_height
    merged := [mutatedOf p target_width target_height] }

/-- Extracts from a compositing operation the scale factor of the page it
places: the `sx` of the last transformation accumulated on the merged
source page.  Grid merges yield `none`. -/
def opScale : SheetOp → Option ℚ
  | SheetOp.mergeTranslatedPage sp _ _ =>
    (sp.merged.head?.bind fun p => p.transforms.getLast?).map fun t => t.sx
  | SheetOp.mergePage _ => none

/-- Extracts from a compositing operation the identity (media box and
content id) of the source page it places.  Grid merges yield `none`. -/
def opSource : SheetOp → Option (ℚ × ℚ × ℕ)
  | SheetOp.mergeTranslatedPage sp _ _ =>
    sp.merged.head?.map fun p => (p.width, p.height, p.contents)
  | SheetOp.mergePage _ => none

/-- Extracts from a compositing operation the offset at which it places
cell content.  Grid merges yield `none`. -/
def opOffset : SheetOp → Option (ℚ × ℚ)
  | SheetOp.mergeTranslatedPage _ tx ty => some (tx, ty)
  | SheetOp.mergePage _ => none

/-- Whether a compositing operation places cell content (as opposed to the
grid overlay). -/
def isContentMerge : SheetOp → Bool
  | SheetOp.mergeTranslatedPage _ _ _ => true
  | SheetOp.mergePage _ => false

/-- A 37800 × 26730 pt page scales into the 37800/127 × 26730/127 pt cell
by exactly 1/127 with no leftover margin, which keeps concrete runs of the
model easy to state. -/
def examplePage : SrcPage := { width := 37800, height := 26730, contents := 7, transforms := [] }

/-- Five distinct pages of the dimensions of `examplePage` (the 5-page
scenario of the spec). -/
def examplePages5 : List SrcPage :=
  [{ examplePage with contents := 1 }, { examplePage with contents := 2 },
   { examplePage with contents := 3 }, { examplePage with contents := 4 },
   { examplePage with contents := 5 }]


/-- Projects the post-call state of the input page out of a
`scale_and_place_page` result. -/
def mutatedInputOf (r : Except PyError (SrcPage × ScaledPage × ℚ × ℚ)) : Option SrcPage :=
  match r with
  | Except.ok (p, _, _, _) => some p
  | Except.error _ => none

/-- The single output sheet for the one-page document `[examplePage]`:
the page scales by exactly `1/127` with no leftover margin, lands in the
top-left cell, and the grid overlay is merged last. -/
def exampleSheet : Sheet :=
  { width := a4_width, height := a4_height
    ops := [SheetOp.mergeTranslatedPage
        { width := a4_width / 2, height := a4_height / 4
          merged := [{ examplePage with transforms := [⟨1 / 127, 1 / 127, 0, 0⟩] }] }
        0 (80190 / 127),
      SheetOp.mergePage (draw_grid_on_top a4_width a4_height)] }

/-- Decidable equality of `Except` results, so concrete runs of the model
can be checked by `decide`. -/
instance {e a : Type} [DecidableEq e] [DecidableEq a] : DecidableEq (Except e a) :=
  fun x y =>
  match x, y with
  | Except.ok v, Except.ok w => decidable_of_iff (v = w) (by simp)
  | Except.error v, Except.error w => decidable_of_iff (v = w) (by simp)
  | Except.ok _, Except.error _ => isFalse (by simp)
  | Except.error _, Except.ok _ => isFalse (by simp)

/-- On a page with nonzero media box dimensions, `scale_and_place_page`
returns normally: the mutated input page, the cell-sized transformed copy,
and the offsets passed through unchanged. -/
theorem scale_and_place_page_ok (p : SrcPage) (tw th xo yo : ℚ)
    (hW : p.width ≠ 0) (hH : p.height ≠ 0) :
    scale_and_place_page p tw th xo yo =
      Except.ok (mutatedOf p tw th, scaledOf p tw th, xo, yo) := by
  simp [scale_and_place_page, hW, hH, mutatedOf, scaledOf, transformOf]

/-- Closed form of the quadrant-filling loop on a group of pages with
nonzero dimensions: one content merge per page, enumerated from the
starting quadrant. -/
theorem fill_quadrants_ok (tw th a4_h : ℚ) (group : List SrcPage) :
    ∀ q : ℕ, (∀ p ∈ group, p.width ≠ 0 ∧ p.height ≠ 0) →
      fill_quadrants tw th a4_h group q =
        Except.ok ((group.enumFrom q).map fun qp =>
          SheetOp.mergeTranslatedPage (scaledOf qp.2 tw th) 0
            (a4_h - ((qp.1 : ℚ) + 1) * th)) := by
  induction group with
  | nil => intro q _; simp [fill_quadrants]
  | cons p rest ih =>
    intro q h
    have hp := h p (by simp)
    have hr : ∀ x ∈ rest, x.width ≠ 0 ∧ x.height ≠ 0 := fun x hx => h x (by simp [hx])
    simp only [fill_quadrants, scale_and_place_page_ok p tw th _ _ hp.1 hp.2, ih (q + 1) hr,
      List.enumFrom_cons, List.map_cons]

/-- The sheet the compositor produces for one group of pages (closed form
of one iteration of the outer loop): the group's pages placed top-to-bottom
into the left-half cells, then the grid overlay merged last. -/
def sheetFor (tw th : ℚ) (group : List SrcPage) : Sheet :=
  { width := a4_width, height := a4_height
    ops := ((group.enumFrom 0).map fun qp =>
        SheetOp.mergeTranslatedPage (scaledOf qp.2 tw th) 0
          (a4_height - ((qp.1 : ℚ) + 1) * th)) ++
      [SheetOp.mergePage (draw_grid_on_top a4_width a4_height)] }

/-- The grouping loop visits exactly the slices `[4k, 4k+4)` of the page
list, for `k < ceil(N/4) = (N+3)/4`. -/
theorem chunk4_eq {α : Type} : ∀ l : List α,
    chunk4 l = (List.range ((l.length + 3) / 4)).map fun k => (l.drop (4 * k)).take 4
  | [] => by simp [chunk4]
  | [a] => by simp [chunk4, List.range_succ]
  | [a, b] => by simp [chunk4, List.range_succ]
  | [a, b, c] => by simp [chunk4, List.range_succ]
  | a :: b :: c :: d :: rest => by
    have ih := chunk4_eq rest
    have hlen : ((a :: b :: c :: d :: rest).length + 3) / 4 = (rest.length + 3) / 4 + 1 := by
      simp only [List.length_cons]
      omega
    rw [show chunk4 (a :: b :: c :: d :: rest) = [a, b, c, d] :: chunk4 rest from rfl, ih, hlen,
      List.range_succ_eq_map, List.map_cons, List.map_map]
    refine congrArg₂ _ rfl (List.map_congr_left fun k _ => ?_)
    show ((a :: b :: c :: d :: rest).drop (4 * (k + 1))).take 4 = (rest.drop (4 * k)).take 4
    have h4 : 4 * (k + 1) = 4 + 4 * k := by ring
    rw [h4, ← List.drop_drop]
    rfl

/-- Pages of a group produced by the grouping loop are pages of the input
document. -/
theorem chunk4_mem {α : Type} {p : α} {g : List α} {l : List α}
    (hg : g ∈ chunk4 l) (hp : p ∈ g) : p ∈ l := by
  rw [chunk4_eq] at hg
  obtain ⟨k, -, rfl⟩ := List.mem_map.mp hg
  exact List.mem_of_mem_drop (List.mem_of_mem_take hp)

/-- Closed form of the outer loop on groups whose pages all have nonzero
dimensions: one sheet per group, each built by `sheetFor`. -/
theorem build_sheets_ok (tw th : ℚ) : ∀ gs : List (List SrcPage),
    (∀ g ∈ gs, ∀ p ∈ g, p.width ≠ 0 ∧ p.height ≠ 0) →
    build_sheets tw th gs = Except.ok (gs.map (sheetFor tw th))
  | [], _ => by simp [build_sheets]
  | g :: gs, h => by
    have hg := h g (by simp)
    have hgs : ∀ x ∈ gs, ∀ p ∈ x, p.width ≠ 0 ∧ p.height ≠ 0 :=
      fun x hx => h x (by simp [hx])
    simp only [build_sheets, fill_quadrants_ok tw th a4_height g 0 hg,
      build_sheets_ok tw th gs hgs, List.map_cons]
    rfl

/-- Closed form of the whole compositor on a document whose pages all have
nonzero dimensions: one sheet per group of four. -/
theorem process_entire_pdf_ok (pages : List SrcPage)
    (h : ∀ p ∈ pages, p.width ≠ 0 ∧ p.height ≠ 0) :
    process_entire_pdf pages =
      Except.ok ((chunk4 pages).map (sheetFor (a4_width / 2) (a4_height / 4))) :=
  build_sheets_ok _ _ _ fun _ hg p hp => h p (chunk4_mem hg hp)

/-- C1: for every source page with `W, H > 0` and every target cell
`(Tw, Th)` with `Tw, Th > 0`, `scale_and_place_page` computes the uniform
scale factor `s = min(Tw/W, Th/H)` exactly (`sx = sy`, never non-uniform)
and the translation `((Tw - W*s)/2, (Th - H*s)/2)`; the scaled bounding
box `[tx, tx + W*s] × [ty, ty + H*s]` fits within `[0, Tw] × [0, Th]`,
and the leftover space is distributed as symmetric margins on each side
(left margin = right margin, bottom margin = top margin). -/
theorem C1_fit_scale (input_page : SrcPage)
    (target_width target_height x_offset y_offset : ℚ)
    (hW : 0 < input_page.width) (hH : 0 < input_page.height)
    (hTw : 0 < target_width) (hTh : 0 < target_height) :
    scale_and_place_page input_page target_width target_height x_offset y_offset =
      Except.ok (mutatedOf input_page target_width target_height,
        scaledOf input_page target_width target_height, x_offset, y_offset) ∧
    (transformOf input_page target_width target_height).sx =
      min (target_width / input_page.width) (target_height / input_page.height) ∧
    (transformOf input_page target_width target_height).sy =
      (transformOf input_page target_width target_height).sx ∧
    (transformOf input_page target_width target_height).tx =
      (target_width -
        input_page.width * (transformOf input_page target_width target_height).sx) / 2 ∧
    (transformOf input_page target_width target_height).ty =
      (target_height -
        input_page.height * (transformOf input_page target_width target_height).sx) / 2 ∧
    0 < (transformOf input_page target_width target_height).sx ∧
    0 ≤ (transformOf input_page target_width target_height).tx ∧
    (transformOf input_page target_width target_height).tx +
        input_page.width * (transformOf input_page target_width target_height).sx ≤
      target_width ∧
    0 ≤ (transformOf input_page target_width target_height).ty ∧
    (transformOf input_page target_width target_height).ty +
        input_page.height * (transformOf input_page target_width target_height).sx ≤
      target_height ∧
    (transformOf input_page target_width target_height).tx =
      target_width - ((transformOf input_page target_width target_height).tx +
        input_page.width * (transformOf input_page target_width target_height).sx) ∧
    (transformOf input_page target_width target_height).ty =
      target_height - ((transformOf input_page target_width target_height).ty +
        input_page.height * (transformOf input_page target_width target_height).sx) := by
  have hW' : input_page.width ≠ 0 := hW.ne'
  have hH' : input_page.height ≠ 0 := hH.ne'
  set W := input_page.width with hWdef
  set H := input_page.height with hHdef
  set s := min (target_width / W) (target_height / H) with hs
  have ht : transformOf input_page target_width target_height =
      ⟨s, s, (target_width - W * s) / 2, (target_height - H * s) / 2⟩ := rfl
  have hWs : W * s ≤ target_width := by
    have h1 : s ≤ target_width / W := min_le_left _ _
    have h2 := (le_div_iff₀ hW).mp h1
    linarith
  have hHs : H * s ≤ target_height := by
    have h1 : s ≤ target_height / H := min_le_right _ _
    have h2 := (le_div_iff₀ hH).mp h1
    linarith
  have hspos : 0 < s := lt_min (div_pos hTw hW) (div_pos hTh hH)
  rw [ht]
  refine ⟨scale_and_place_page_ok _ _ _ _ _ hW' hH', rfl, rfl, rfl, rfl, hspos,
    by linarith, by linarith, by linarith, by linarith, by ring, by ring⟩

/-- C1 witness: a 100 × 200 page placed into a 50 × 50 cell. -/
theorem C1_fit_scale_witness :
    scale_and_place_page ⟨100, 200, 3, []⟩ 50 50 0 0 =
      Except.ok (mutatedOf ⟨100, 200, 3, []⟩ 50 50,
        scaledOf ⟨100, 200, 3, []⟩ 50 50, 0, 0) ∧
    (transformOf ⟨100, 200, 3, []⟩ 50 50).sx = min ((50 : ℚ) / 100) (50 / 200) ∧
    (transformOf ⟨100, 200, 3, []⟩ 50 50).sy = (transformOf ⟨100, 200, 3, []⟩ 50 50).sx ∧
    (transformOf ⟨100, 200, 3, []⟩ 50 50).tx =
      (50 - 100 * (transformOf ⟨100, 200, 3, []⟩ 50 50).sx) / 2 ∧
    (transformOf ⟨100, 200, 3, []⟩ 50 50).ty =
      (50 - 200 * (transformOf ⟨100, 200, 3, []⟩ 50 50).sx) / 2 ∧
    0 < (transformOf ⟨100, 200, 3, []⟩ 50 50).sx ∧
    0 ≤ (transformOf ⟨100, 200, 3, []⟩ 50 50).tx ∧
    (transformOf ⟨100, 200, 3, []⟩ 50 50).tx +
        100 * (transformOf ⟨100, 200, 3, []⟩ 50 50).sx ≤ 50 ∧
    0 ≤ (transformOf ⟨100, 200, 3, []⟩ 50 50).ty ∧
    (transformOf ⟨100, 200, 3, []⟩ 50 50).ty +
        200 * (transformOf ⟨100, 200, 3, []⟩ 50 50).sx ≤ 50 ∧
    (transformOf ⟨100, 200, 3, []⟩ 50 50).tx =
      50 - ((transformOf ⟨100, 200, 3, []⟩ 50 50).tx +
        100 * (transformOf ⟨100, 200, 3, []⟩ 50 50).sx) ∧
    (transformOf ⟨100, 200, 3, []⟩ 50 50).ty =
      50 - ((transformOf ⟨100, 200, 3, []⟩ 50 50).ty +
        200 * (transformOf ⟨100, 200, 3, []⟩ 50 50).sx) :=
  C1_fit_scale ⟨100, 200, 3, []⟩ 50 50 0 0 (by norm_num) (by norm_num)
    (by norm_num) (by norm_num)

/-- C2 (code behavior at the failing input): a page whose media box has
zero width (or zero height) makes `scale_and_place_page` raise
`ZeroDivisionError` at the `target_width / original_width`
(resp. `target_height / original_height`) division, and the whole
compositor run aborts with that same propagated `ZeroDivisionError`.
There is no explicit "invalid page dimensions" rejection anywhere in the
code. -/
theorem C2_zero_dimension_raises :
    scale_and_place_page ⟨0, 100, 3, []⟩ (a4_width / 2) (a4_height / 4) 0 0 =
      Except.error PyError.zeroDivisionError ∧
    scale_and_place_page ⟨100, 0, 3, []⟩ (a4_width / 2) (a4_height / 4) 0 0 =
      Except.error PyError.zeroDivisionError ∧
    process_entire_pdf [⟨0, 100, 3, []⟩] = Except.error PyError.zeroDivisionError := by
  refine ⟨?_, ?_, ?_⟩ <;> rfl

/-- C6 counterexample: the claim that the source page's state is unchanged
after the call fails on a concrete 100 × 200 page placed into the
compositor's cell: `add_transformation` has mutated the page (its
transformation list has grown). -/
theorem C6_no_mutation_counterexample :
    mutatedInputOf
        (scale_and_place_page ⟨100, 200, 3, []⟩ (a4_width / 2) (a4_height / 4) 0 0) ≠
      some ⟨100, 200, 3, []⟩ := by
  decide

/-- C6 amended: `scale_and_place_page` does produce a transformed copy (a
fresh blank cell-sized page with the content merged onto it), but it also
mutates the input page in place: the returned input-page state keeps the
original media box and content and has the scale-and-center transformation
appended to its accumulated transformations, so it differs from the
pre-call state. -/
theorem C6_transformed_copy_but_mutates (input_page : SrcPage)
    (target_width target_height x_offset y_offset : ℚ)
    (hW : input_page.width ≠ 0) (hH : input_page.height ≠ 0) :
    scale_and_place_page input_page target_width target_height x_offset y_offset =
      Except.ok (mutatedOf input_page target_width target_height,
        scaledOf input_page target_width target_height, x_offset, y_offset) ∧
    (mutatedOf input_page target_width target_height).width = input_page.width ∧
    (mutatedOf input_page target_width target_height).height = input_page.height ∧
    (mutatedOf input_page target_width target_height).contents = input_page.contents ∧
    (mutatedOf input_page target_width target_height).transforms =
      input_page.transforms ++ [transformOf input_page target_width target_height] ∧
    mutatedOf input_page target_width target_height ≠ input_page ∧
    scaledOf input_page target_width target_height =
      { width := target_width, height := target_height
        merged := [mutatedOf input_page target_width target_height] } := by
  refine ⟨scale_and_place_page_ok _ _ _ _ _ hW hH, rfl, rfl, rfl, rfl, ?_, rfl⟩
  intro hcontra
  have hlen := congrArg (fun p => p.transforms.length) hcontra
  simp [mutatedOf] at hlen

/-- C6 amended witness: the 100 × 200 page in the compositor's cell. -/
theorem C6_transformed_copy_but_mutates_witness :
    scale_and_place_page ⟨100, 200, 3, []⟩ (a4_width / 2) (a4_height / 4) 0 0 =
      Except.ok (mutatedOf ⟨100, 200, 3, []⟩ (a4_width / 2) (a4_height / 4),
        scaledOf ⟨100, 200, 3, []⟩ (a4_width / 2) (a4_height / 4), 0, 0) ∧
    (mutatedOf ⟨100, 200, 3, []⟩ (a4_width / 2) (a4_height / 4)).width = 100 ∧
    (mutatedOf ⟨100, 200, 3, []⟩ (a4_width / 2) (a4_height / 4)).height = 200 ∧
    (mutatedOf ⟨100, 200, 3, []⟩ (a4_width / 2) (a4_height / 4)).contents = 3 ∧
    (mutatedOf ⟨100, 200, 3, []⟩ (a4_width / 2) (a4_height / 4)).transforms =
      [] ++ [transformOf ⟨100, 200, 3, []⟩ (a4_width / 2) (a4_height / 4)] ∧
    mutatedOf ⟨100, 200, 3, []⟩ (a4_width / 2) (a4_height / 4) ≠ ⟨100, 200, 3, []⟩ ∧
    scaledOf ⟨100, 200, 3, []⟩ (a4_width / 2) (a4_height / 4) =
      { width := a4_width / 2, height := a4_height / 4
        merged := [mutatedOf ⟨100, 200, 3, []⟩ (a4_width / 2) (a4_height / 4)] } :=
  C6_transformed_copy_but_mutates ⟨100, 200, 3, []⟩ (a4_width / 2) (a4_height / 4) 0 0
    (by norm_num) (by norm_num)

/-- The content merges of a produced sheet are exactly one merge per page
of its group, in order. -/
theorem sheetFor_filter_content (tw th : ℚ) (g : List SrcPage) :
    (sheetFor tw th g).ops.filter isContentMerge =
      (g.enumFrom 0).map fun qp =>
        SheetOp.mergeTranslatedPage (scaledOf qp.2 tw th) 0
          (a4_height - ((qp.1 : ℚ) + 1) * th) := by
  rw [sheetFor, List.filter_append]
  have h1 : ((g.enumFrom 0).map fun qp =>
      SheetOp.mergeTranslatedPage (scaledOf qp.2 tw th) 0
        (a4_height - ((qp.1 : ℚ) + 1) * th)).filter isContentMerge =
      (g.enumFrom 0).map fun qp =>
        SheetOp.mergeTranslatedPage (scaledOf qp.2 tw th) 0
          (a4_height - ((qp.1 : ℚ) + 1) * th) := by
    rw [List.filter_eq_self]
    intro a ha
    obtain ⟨qp, -, rfl⟩ := List.mem_map.mp ha
    rfl
  rw [h1, show List.filter isContentMerge
      [SheetOp.mergePage (draw_grid_on_top a4_width a4_height)] = [] from rfl,
    List.append_nil]

/-- A produced sheet has one content merge per page of its group and one
further operation (the grid merge): nothing else is drawn into unused
cells. -/
theorem sheetFor_op_counts (tw th : ℚ) (g : List SrcPage) :
    ((sheetFor tw th g).ops.filter isContentMerge).length = g.length ∧
    (sheetFor tw th g).ops.length = g.length + 1 := by
  constructor
  · rw [sheetFor_filter_content]
    simp [List.enumFrom_length]
  · simp [sheetFor, List.enumFrom_length]

/-- The placement offsets of a produced sheet: `x = 0` and
`y = a4_height - (q+1) * th` for quadrant `q = 0, 1, …`, top cell first. -/
theorem sheetFor_offsets (tw th : ℚ) (g : List SrcPage) :
    (sheetFor tw th g).ops.filterMap opOffset =
      (List.range g.length).map fun q : ℕ => ((0 : ℚ), a4_height - ((q : ℚ) + 1) * th) := by
  rw [sheetFor]
  rw [List.filterMap_append]
  rw [show List.filterMap opOffset
      [SheetOp.mergePage (draw_grid_on_top a4_width a4_height)] = [] from rfl,
    List.append_nil, List.filterMap_map]
  rw [show (opOffset ∘ fun qp : ℕ × SrcPage =>
      SheetOp.mergeTranslatedPage (scaledOf qp.2 tw th) 0
        (a4_height - ((qp.1 : ℚ) + 1) * th)) =
      some ∘ ((fun q : ℕ => ((0 : ℚ), a4_height - ((q : ℚ) + 1) * th)) ∘ Prod.fst) from rfl,
    List.filterMap_eq_map, ← List.map_map, List.enumFrom_map_fst, ← List.range_eq_range']

/-- The scale factors recorded on a produced sheet: each page of the group
contributes exactly `min(tw / W, th / H)`. -/
theorem sheetFor_scales (tw th : ℚ) (g : List SrcPage) :
    (sheetFor tw th g).ops.filterMap opScale =
      g.map fun p => min (tw / p.width) (th / p.height) := by
  rw [sheetFor]
  rw [List.filterMap_append]
  rw [show List.filterMap opScale
      [SheetOp.mergePage (draw_grid_on_top a4_width a4_height)] = [] from rfl,
    List.append_nil, List.filterMap_map]
  have hcomp : (opScale ∘ fun qp : ℕ × SrcPage =>
      SheetOp.mergeTranslatedPage (scaledOf qp.2 tw th) 0
        (a4_height - ((qp.1 : ℚ) + 1) * th)) =
      some ∘ ((fun p : SrcPage => min (tw / p.width) (th / p.height)) ∘ Prod.snd) := by
    funext qp
    simp [opScale, scaledOf, mutatedOf, List.getLast?_concat, transformOf, Function.comp]
  rw [hcomp, List.filterMap_eq_map, ← List.map_map, List.enumFrom_map_snd]

/-- The identities (media box and content) of the source pages placed on a
produced sheet: exactly the group's pages, in order. -/
theorem sheetFor_sources (tw th : ℚ) (g : List SrcPage) :
    (sheetFor tw th g).ops.filterMap opSource =
      g.map fun p => (p.width, p.height, p.contents) := by
  rw [sheetFor]
  rw [List.filterMap_append]
  rw [show List.filterMap opSource
      [SheetOp.mergePage (draw_grid_on_top a4_width a4_height)] = [] from rfl,
    List.append_nil, List.filterMap_map]
  rw [show (opSource ∘ fun qp : ℕ × SrcPage =>
      SheetOp.mergeTranslatedPage (scaledOf qp.2 tw th) 0
        (a4_height - ((qp.1 : ℚ) + 1) * th)) =
      some ∘ ((fun p : SrcPage => (p.width, p.height, p.contents)) ∘ Prod.snd) from rfl,
    List.filterMap_eq_map, ← List.map_map, List.enumFrom_map_snd]

/-- C3: for every input document of `N` pages (all with nonzero media box
dimensions, so that the run completes), `process_entire_pdf` produces an
output document of exactly `ceil(N/4) = (N+3)/4` sheets. -/
theorem C3_sheet_count (pages : List SrcPage)
    (h : ∀ p ∈ pages, p.width ≠ 0 ∧ p.height ≠ 0) :
    (process_entire_pdf pages).map List.length =
      Except.ok ((pages.length + 3) / 4) := by
  rw [process_entire_pdf_ok pages h, chunk4_eq]
  simp [Except.map]

/-- C3 witness: the 5-page document yields `(5+3)/4 = 2` sheets. -/
theorem C3_sheet_count_witness :
    (process_entire_pdf examplePages5).map List.length =
      Except.ok ((examplePages5.length + 3) / 4) :=
  C3_sheet_count examplePages5 (by decide)

/-- C4: for every input document (all pages with nonzero dimensions), the
output is exactly one sheet per index `k < ceil(N/4)`; sheet `k` holds the
source pages with indices in `[4k, 4k+4)` in original order, each page at
position `q` within its group scaled into a cell of width `a4_width / 2`
and height `a4_height / 4` (the size of the blank page it is merged onto)
and composited at x-offset `0` and y-offset
`a4_height - (q+1) * (a4_height / 4)`, so cells fill top-to-bottom on the
left half with `q = 0` topmost; the grid overlay follows as the final
operation. -/
theorem C4_sheet_layout (pages : List SrcPage)
    (h : ∀ p ∈ pages, p.width ≠ 0 ∧ p.height ≠ 0) :
    process_entire_pdf pages =
      Except.ok ((List.range ((pages.length + 3) / 4)).map fun k : ℕ =>
        { width := a4_width, height := a4_height
          ops := ((((pages.drop (4 * k)).take 4).enumFrom 0).map fun qp =>
              SheetOp.mergeTranslatedPage
                (scaledOf qp.2 (a4_width / 2) (a4_height / 4)) 0
                (a4_height - ((qp.1 : ℚ) + 1) * (a4_height / 4))) ++
            [SheetOp.mergePage (draw_grid_on_top a4_width a4_height)] }) := by
  rw [process_entire_pdf_ok pages h, chunk4_eq, List.map_map]
  rfl

/-- C4 witness: the layout of the 5-page document. -/
theorem C4_sheet_layout_witness :
    process_entire_pdf examplePages5 =
      Except.ok ((List.range ((examplePages5.length + 3) / 4)).map fun k : ℕ =>
        { width := a4_width, height := a4_height
          ops := ((((examplePages5.drop (4 * k)).take 4).enumFrom 0).map fun qp =>
              SheetOp.mergeTranslatedPage
                (scaledOf qp.2 (a4_width / 2) (a4_height / 4)) 0
                (a4_height - ((qp.1 : ℚ) + 1) * (a4_height / 4))) ++
            [SheetOp.mergePage (draw_grid_on_top a4_width a4_height)] }) :=
  C4_sheet_layout examplePages5 (by decide)

/-- C5: if the final group has fewer than 4 pages, the unused cells of the
last sheet stay blank: sheet `k` carries exactly
`min 4 (N - 4k)` content merges and exactly one further operation (the
grid overlay) — no placeholder is drawn — and the filled cells are the
topmost ones, at x-offset `0` and y-offsets
`a4_height - (q+1) * (a4_height / 4)` for `q = 0, 1, …` (q = 0 is the
top-left cell). -/
theorem C5_blank_cells (pages : List SrcPage)
    (h : ∀ p ∈ pages, p.width ≠ 0 ∧ p.height ≠ 0) :
    (process_entire_pdf pages).map (fun sheets => sheets.map fun s =>
        ((s.ops.filter isContentMerge).length, s.ops.length)) =
      Except.ok ((List.range ((pages.length + 3) / 4)).map fun k : ℕ =>
        (min 4 (pages.length - 4 * k), min 4 (pages.length - 4 * k) + 1)) ∧
    (process_entire_pdf pages).map (fun sheets => sheets.map fun s =>
        s.ops.filterMap opOffset) =
      Except.ok ((List.range ((pages.length + 3) / 4)).map fun k : ℕ =>
        (List.range (min 4 (pages.length - 4 * k))).map fun q : ℕ =>
          ((0 : ℚ), a4_height - ((q : ℚ) + 1) * (a4_height / 4))) := by
  constructor
  · rw [process_entire_pdf_ok pages h, chunk4_eq]
    simp only [Except.map, List.map_map]
    refine congrArg _ (List.map_congr_left fun k _ => ?_)
    have hlen : ((pages.drop (4 * k)).take 4).length = min 4 (pages.length - 4 * k) := by
      simp
    obtain ⟨h1, h2⟩ :=
      sheetFor_op_counts (a4_width / 2) (a4_height / 4) ((pages.drop (4 * k)).take 4)
    simp only [Function.comp_apply]
    rw [h1, h2, hlen]
  · rw [process_entire_pdf_ok pages h, chunk4_eq]
    simp only [Except.map, List.map_map]
    refine congrArg _ (List.map_congr_left fun k _ => ?_)
    have hlen : ((pages.drop (4 * k)).take 4).length = min 4 (pages.length - 4 * k) := by
      simp
    simp only [Function.comp_apply]
    rw [sheetFor_offsets, hlen]

/-- C5 witness: the 5-page document yields 2 sheets; the first has 4 filled
cells, the second exactly 1 filled cell at the top-left position and 3
blank cells (its only operations are that one merge and the grid). -/
theorem C5_blank_cells_witness :
    (process_entire_pdf examplePages5).map (fun sheets => sheets.map fun s =>
        ((s.ops.filter isContentMerge).length, s.ops.length)) =
      Except.ok ((List.range ((examplePages5.length + 3) / 4)).map fun k : ℕ =>
        (min 4 (examplePages5.length - 4 * k), min 4 (examplePages5.length - 4 * k) + 1)) ∧
    (process_entire_pdf examplePages5).map (fun sheets => sheets.map fun s =>
        s.ops.filterMap opOffset) =
      Except.ok ((List.range ((examplePages5.length + 3) / 4)).map fun k : ℕ =>
        (List.range (min 4 (examplePages5.length - 4 * k))).map fun q : ℕ =>
          ((0 : ℚ), a4_height - ((q : ℚ) + 1) * (a4_height / 4))) :=
  C5_blank_cells examplePages5 (by decide)

/-- C9: a compositor run is the pure function `process_entire_pdf` of the
source pages — each run constructs a fresh `PdfReader` from the input
file, so the in-place page mutations of one run are not visible to the
next — and the page grouping and per-page scale factors it produces are
exactly this input-determined value: running twice on the same input with
the same settings therefore yields the same groups and the same scale
factor for every page. -/
theorem C9_deterministic_layout (pages : List SrcPage)
    (h : ∀ p ∈ pages, p.width ≠ 0 ∧ p.height ≠ 0) :
    (process_entire_pdf pages).map (fun sheets => sheets.map fun s =>
        s.ops.filterMap opScale) =
      Except.ok ((List.range ((pages.length + 3) / 4)).map fun k : ℕ =>
        ((pages.drop (4 * k)).take 4).map fun p =>
          min ((a4_width / 2) / p.width) ((a4_height / 4) / p.height)) ∧
    (process_entire_pdf pages).map (fun sheets => sheets.map fun s =>
        s.ops.filterMap opSource) =
      Except.ok ((List.range ((pages.length + 3) / 4)).map fun k : ℕ =>
        ((pages.drop (4 * k)).take 4).map fun p => (p.width, p.height, p.contents)) := by
  constructor
  · rw [process_entire_pdf_ok pages h, chunk4_eq]
    simp only [Except.map, List.map_map]
    refine congrArg _ (List.map_congr_left fun k _ => ?_)
    simp only [Function.comp_apply]
    rw [sheetFor_scales]
  · rw [process_entire_pdf_ok pages h, chunk4_eq]
    simp only [Except.map, List.map_map]
    refine congrArg _ (List.map_congr_left fun k _ => ?_)
    simp only [Function.comp_apply]
    rw [sheetFor_sources]

/-- C9 witness: the layout value of the 5-page document. -/
theorem C9_deterministic_layout_witness :
    (process_entire_pdf examplePages5).map (fun sheets => sheets.map fun s =>
        s.ops.filterMap opScale) =
      Except.ok ((List.range ((examplePages5.length + 3) / 4)).map fun k : ℕ =>
        ((examplePages5.drop (4 * k)).take 4).map fun p =>
          min ((a4_width / 2) / p.width) ((a4_height / 4) / p.height)) ∧
    (process_entire_pdf examplePages5).map (fun sheets => sheets.map fun s =>
        s.ops.filterMap opSource) =
      Except.ok ((List.range ((examplePages5.length + 3) / 4)).map fun k : ℕ =>
        ((examplePages5.drop (4 * k)).take 4).map fun p =>
          (p.width, p.height, p.contents)) :=
  C9_deterministic_layout examplePages5 (by decide)

/-- Whatever the quadrant loop returns normally consists of content merges
only (it never draws anything else, in particular no placeholder and no
grid). -/
theorem fill_quadrants_content (tw th a4_h : ℚ) (group : List SrcPage) :
    ∀ (q : ℕ) (ops : List SheetOp),
      fill_quadrants tw th a4_h group q = Except.ok ops →
      ∀ op ∈ ops, isContentMerge op = true := by
  induction group with
  | nil =>
    intro q ops h op hop
    simp only [fill_quadrants, Except.ok.injEq] at h
    subst h
    simp at hop
  | cons p rest ih =>
    intro q ops h op hop
    simp only [fill_quadrants] at h
    split at h
    · exact absurd h (by simp)
    · split at h
      · exact absurd h (by simp)
      · rename_i ops' heq
        simp only [Except.ok.injEq] at h
        subst h
        rcases List.mem_cons.mp hop with hop | hop
        · subst hop; rfl
        · exact ih (q + 1) ops' heq op hop

/-- Every sheet that the outer loop emits is a blank A4 page carrying some
content merges followed by the grid overlay as its final operation. -/
theorem build_sheets_shape (tw th : ℚ) (gs : List (List SrcPage)) :
    ∀ sheets : List Sheet, build_sheets tw th gs = Except.ok sheets →
      ∀ s ∈ sheets, ∃ ops,
        s.ops = ops ++ [SheetOp.mergePage (draw_grid_on_top a4_width a4_height)] ∧
        (∀ op ∈ ops, isContentMerge op = true) ∧
        s.width = a4_width ∧ s.height = a4_height := by
  induction gs with
  | nil =>
    intro sheets h s hs
    simp only [build_sheets, Except.ok.injEq] at h
    subst h
    simp at hs
  | cons g gs ih =>
    intro sheets h s hs
    simp only [build_sheets] at h
    split at h
    · exact absurd h (by simp)
    · rename_i ops heq
      split at h
      · exact absurd h (by simp)
      · rename_i sheets' heq2
        simp only [Except.ok.injEq] at h
        subst h
        rcases List.mem_cons.mp hs with hs | hs
        · subst hs
          exact ⟨ops, rfl, fill_quadrants_content tw th a4_height g 0 ops heq, rfl, rfl⟩
        · exact ih sheets' heq2 s hs

/-- C10: every sheet `process_entire_pdf` emits — for any input whatsoever
on which a sheet is emitted at all — has the grid-line overlay merged onto
it as its final compositing operation. -/
theorem C10_grid_always_last (pages : List SrcPage) (sheets : List Sheet)
    (hok : process_entire_pdf pages = Except.ok sheets) :
    sheets.map (fun s => s.ops.getLast?) =
      List.replicate sheets.length
        (some (SheetOp.mergePage (draw_grid_on_top a4_width a4_height))) := by
  have hshape := build_sheets_shape (a4_width / 2) (a4_height / 4) (chunk4 pages) sheets hok
  rw [List.eq_replicate_iff]
  refine ⟨by simp, ?_⟩
  intro b hb
  obtain ⟨s, hs, rfl⟩ := List.mem_map.mp hb
  obtain ⟨ops, hops, -, -, -⟩ := hshape s hs
  rw [hops, List.getLast?_concat]

/-- The compositor maps the one-page document `[examplePage]` to exactly
`[exampleSheet]`. -/
theorem exampleSheet_run :
    process_entire_pdf [examplePage] = Except.ok [exampleSheet] := by
  rw [process_entire_pdf_ok [examplePage] (by decide),
    show chunk4 [examplePage] = [[examplePage]] from rfl]
  norm_num [sheetFor, scaledOf, mutatedOf, transformOf, examplePage, exampleSheet,
    a4_width, a4_height, List.enumFrom]

/-- C10 witness: the one-page document and its computed sheet. -/
theorem C10_grid_always_last_witness :
    ([exampleSheet] : List Sheet).map (fun s => s.ops.getLast?) =
      List.replicate ([exampleSheet] : List Sheet).length
        (some (SheetOp.mergePage (draw_grid_on_top a4_width a4_height))) :=
  C10_grid_always_last [examplePage] [exampleSheet] exampleSheet_run

/-- C7: the grid overlay for a sheet of size
`(page_width, page_height)` consists of exactly one vertical line at
`x = page_width / 2` spanning the full sheet height and three horizontal
lines at `y = page_height / 4`, `page_height / 2` and
`3 * page_height / 4` spanning the full sheet width, all black with line
width 1; and on every emitted sheet the overlay is composited last (the
final operation is the grid merge and everything before it is page
content). -/
theorem C7_grid_overlay (page_width page_height : ℚ) (pages : List SrcPage)
    (sheets : List Sheet) (hok : process_entire_pdf pages = Except.ok sheets) :
    draw_grid_on_top page_width page_height =
      [{ x1 := page_width / 2, y1 := 0, x2 := page_width / 2, y2 := page_height
         colorR := 0, colorG := 0, colorB := 0, lineWidth := 1 },
       { x1 := 0, y1 := page_height / 4, x2 := page_width, y2 := page_height / 4
         colorR := 0, colorG := 0, colorB := 0, lineWidth := 1 },
       { x1 := 0, y1 := page_height / 2, x2 := page_width, y2 := page_height / 2
         colorR := 0, colorG := 0, colorB := 0, lineWidth := 1 },
       { x1 := 0, y1 := 3 * page_height / 4, x2 := page_width, y2 := 3 * page_height / 4
         colorR := 0, colorG := 0, colorB := 0, lineWidth := 1 }] ∧
    sheets.map (fun s => s.ops.getLast?) =
      List.replicate sheets.length
        (some (SheetOp.mergePage (draw_grid_on_top a4_width a4_height))) ∧
    sheets.map (fun s => s.ops.dropLast.all isContentMerge) =
      List.replicate sheets.length true := by
  have hshape := build_sheets_shape (a4_width / 2) (a4_height / 4) (chunk4 pages) sheets hok
  refine ⟨?_, ?_, ?_⟩
  · simp only [draw_grid_on_top, show List.range' 1 3 = [1, 2, 3] from rfl,
      List.map_cons, List.map_nil]
    norm_num
    exact ⟨by ring, by ring⟩
  · rw [List.eq_replicate_iff]
    refine ⟨by simp, ?_⟩
    intro b hb
    obtain ⟨s, hs, rfl⟩ := List.mem_map.mp hb
    obtain ⟨ops, hops, -, -, -⟩ := hshape s hs
    rw [hops, List.getLast?_concat]
  · rw [List.eq_replicate_iff]
    refine ⟨by simp, ?_⟩
    intro b hb
    obtain ⟨s, hs, rfl⟩ := List.mem_map.mp hb
    obtain ⟨ops, hops, hcontent, -, -⟩ := hshape s hs
    rw [hops, List.dropLast_concat, List.all_eq_true]
    exact hcontent

/-- C7 witness: the grid of the A4 sheet and the one-page document. -/
theorem C7_grid_overlay_witness :
    draw_grid_on_top a4_width a4_height =
      [{ x1 := a4_width / 2, y1 := 0, x2 := a4_width / 2, y2 := a4_height
         colorR := 0, colorG := 0, colorB := 0, lineWidth := 1 },
       { x1 := 0, y1 := a4_height / 4, x2 := a4_width, y2 := a4_height / 4
         colorR := 0, colorG := 0, colorB := 0, lineWidth := 1 },
       { x1 := 0, y1 := a4_height / 2, x2 := a4_width, y2 := a4_height / 2
         colorR := 0, colorG := 0, colorB := 0, lineWidth := 1 },
       { x1 := 0, y1 := 3 * a4_height / 4, x2 := a4_width, y2 := 3 * a4_height / 4
         colorR := 0, colorG := 0, colorB := 0, lineWidth := 1 }] ∧
    ([exampleSheet] : List Sheet).map (fun s => s.ops.getLast?) =
      List.replicate ([exampleSheet] : List Sheet).length
        (some (SheetOp.mergePage (draw_grid_on_top a4_width a4_height))) ∧
    ([exampleSheet] : List Sheet).map (fun s => s.ops.dropLast.all isContentMerge) =
      List.replicate ([exampleSheet] : List Sheet).length true :=
  C7_grid_overlay a4_width a4_height [examplePage] [exampleSheet] exampleSheet_run

/-- C8: a POST to `/process-pdf` whose multipart form has no `file` part,
or whose uploaded file has an empty filename, gets an HTTP 400 response
with a plain-text body, and the compositor is not run. -/
theorem C8_bad_upload_rejected (req : HttpRequest)
    (hpost : req.method = HttpMethod.post)
    (hbad : List.lookup ("file") req.files = none ∨
      ∃ file, List.lookup ("file") req.files = some file ∧ file.filename = "") :
    (process_pdf_api req).2 = false ∧
    ((process_pdf_api req).1 = ApiResponse.plainText 400 ("No file part") ∨
      (process_pdf_api req).1 = ApiResponse.plainText 400 ("No selected file")) := by
  rcases hbad with hnone | ⟨file, hsome, hempty⟩
  · simp [process_pdf_api, hpost, hnone]
  · simp [process_pdf_api, hpost, hsome, hempty]

/-- C8 witness: a POST with no files at all is rejected with 400 "No file
part" and the compositor does not run. -/
theorem C8_bad_upload_rejected_witness :
    (process_pdf_api { method := HttpMethod.post, files := [] }).2 = false ∧
    ((process_pdf_api { method := HttpMethod.post, files := [] }).1 =
        ApiResponse.plainText 400 ("No file part") ∨
      (process_pdf_api { method := HttpMethod.post, files := [] }).1 =
        ApiResponse.plainText 400 ("No selected file")) :=
  C8_bad_upload_rejected { method := HttpMethod.post, files := [] } rfl (Or.inl rfl)
